import Mathlib

/-! Shallow embedding of the HTS221 register driver (src/device.rs).

Register snapshots are modelled as `Nat` byte values, signed 16-bit values as
their 16-bit patterns read through a twos-complement view, and the I2C bus as
an oracle structure together with an explicit trace of issued transactions. -/

/-- Twos-complement reading of a 16-bit pattern, as in a Rust i16. -/
def i16val (n : Nat) : Int :=
  if n % 65536 < 32768 then ((n % 65536 : Nat) : Int)
  else ((n % 65536 : Nat) : Int) - 65536

/-- Assembly of an i16 from two u8 bytes as in the source:
zero-extend the high byte, shift it left by 8 (wrapping in 16 bits as the Rust
shift on i16 does), and bitwise-or in the zero-extended low byte. -/
def i16FromBytes (lo hi : Nat) : Int :=
  i16val (((hi <<< 8) % 65536) ||| lo)

/-- Bitwise complement of a byte, as the Rust not operator on u8. -/
def u8not (x : Nat) : Nat := x ^^^ 255

/-- One bus transaction as issued by the driver: either a plain write of a byte
sequence, or a write of a request followed by a read into a buffer of the given
length, in a single transaction. -/
inductive Tx where
  | write (dev : Nat) (bytes : List Nat)
  | writeRead (dev : Nat) (req : List Nat) (bufLen : Nat)
  deriving DecidableEq

/-- Whether a transaction is a plain bus write. -/
def Tx.isWriteTx : Tx → Bool
  | .write _ _ => true
  | .writeRead _ _ _ => false

/-- The I2C trait: an oracle giving the outcome of each write transaction and
of each write-read transaction (an error or the bytes supplied by the bus). -/
structure I2C (ε : Type) where
  writeResult : Nat → List Nat → Option ε
  readResult : Nat → List Nat → Nat → Except ε (List Nat)

/-- Blocking write: issues one write transaction; the outcome comes from the oracle. -/
def I2C.write {ε : Type} (comm : I2C ε) (dev : Nat) (bytes : List Nat) :
    List Tx × Except ε Unit :=
  ([Tx.write dev bytes],
   match comm.writeResult dev bytes with
   | none => Except.ok ()
   | some e => Except.error e)

/-- Blocking write-then-read: issues one write-read transaction.  The buffer
starts zero-filled and holds exactly `bufLen` bytes after the bus fills it. -/
def I2C.write_read {ε : Type} (comm : I2C ε) (dev : Nat) (bytes : List Nat)
    (bufLen : Nat) : List Tx × Except ε (List Nat) :=
  ([Tx.writeRead dev bytes bufLen],
   match comm.readResult dev bytes bufLen with
   | Except.ok resp => Except.ok ((resp ++ List.replicate bufLen 0).take bufLen)
   | Except.error e => Except.error e)

/-- 7-bit I2C slave address of the HTS221. -/
def I2C_ID : Nat := 0x5F

/-- Single-byte register read. -/
def read_register {ε : Type} (comm : I2C ε) (addr : Nat) : List Tx × Except ε Nat :=
  let r := comm.write_read I2C_ID [addr] 1
  (r.1, r.2.map (fun data => data.getD 0 0))

/-- Single-byte register write. -/
def write_register {ε : Type} (comm : I2C ε) (addr : Nat) (bits : Nat) :
    List Tx × Except ε Unit :=
  comm.write I2C_ID [addr, bits]

/-- Two-byte register read returning a signed 16-bit value assembled from
the buffer as `(data[1] as i16) << 8 | data[0] as i16`. -/
def read_register_pair {ε : Type} (comm : I2C ε) (addr : Nat) :
    List Tx × Except ε Int :=
  let r := comm.write_read I2C_ID [addr] 2
  (r.1, r.2.map (fun data => i16FromBytes (data.getD 0 0) (data.getD 1 0)))

/-- Sub-address of WHO_AM_I. -/
def who_am_i.ADDR : Nat := 0x0F

/-- Blocking read of the WHO_AM_I register; the snapshot is the response byte. -/
def WhoAmI.new {ε : Type} (comm : I2C ε) : List Tx × Except ε Nat :=
  read_register comm who_am_i.ADDR

/-- Returns the device ID byte. -/
def WhoAmI.device_id (bits : Nat) : Nat := bits

/-- Sub-address of AV_CONF. -/
def av_conf.ADDR : Nat := 0x10

/-- The humidity configuration mask (3 bits). -/
def av_conf.H_MASK : Nat := 0b111

/-- The humidity configuration offset (bit 0). -/
def av_conf.H_OFFSET : Nat := 0

/-- Humidity averaging selector values. -/
inductive av_conf.AvgH where
  | Avg4 | Avg8 | Avg16 | Avg32 | Avg64 | Avg128 | Avg256 | Avg512
  deriving DecidableEq, Fintype

/-- Discriminant of each humidity averaging selector, as in the Rust enum. -/
def av_conf.AvgH.val : av_conf.AvgH → Nat
  | .Avg4 => 0
  | .Avg8 => 1
  | .Avg16 => 2
  | .Avg32 => 3
  | .Avg64 => 4
  | .Avg128 => 5
  | .Avg256 => 6
  | .Avg512 => 7

/-- Sample count selected by each humidity averaging selector. -/
def av_conf.AvgH.samples : av_conf.AvgH → Nat
  | .Avg4 => 4
  | .Avg8 => 8
  | .Avg16 => 16
  | .Avg32 => 32
  | .Avg64 => 64
  | .Avg128 => 128
  | .Avg256 => 256
  | .Avg512 => 512

/-- The temperature configuration mask (3 bits). -/
def av_conf.T_MASK : Nat := 0b111

/-- The temperature configuration offset (bit 3). -/
def av_conf.T_OFFSET : Nat := 3

/-- Temperature averaging selector values. -/
inductive av_conf.AvgT where
  | Avg2 | Avg4 | Avg8 | Avg16 | Avg32 | Avg64 | Avg128 | Avg256
  deriving DecidableEq, Fintype

/-- Discriminant of each temperature averaging selector, as in the Rust enum. -/
def av_conf.AvgT.val : av_conf.AvgT → Nat
  | .Avg2 => 0
  | .Avg4 => 1
  | .Avg8 => 2
  | .Avg16 => 3
  | .Avg32 => 4
  | .Avg64 => 5
  | .Avg128 => 6
  | .Avg256 => 7

/-- Sample count selected by each temperature averaging selector. -/
def av_conf.AvgT.samples : av_conf.AvgT → Nat
  | .Avg2 => 2
  | .Avg4 => 4
  | .Avg8 => 8
  | .Avg16 => 16
  | .Avg32 => 32
  | .Avg64 => 64
  | .Avg128 => 128
  | .Avg256 => 256

/-- Blocking read of the AV_CONF register. -/
def AvConf.new {ε : Type} (comm : I2C ε) : List Tx × Except ε Nat :=
  read_register comm av_conf.ADDR

/-- Updates the snapshot using `f`, then writes the new value out to the chip.
Returns the trace, the new snapshot, and the write outcome. -/
def AvConf.modify {ε : Type} (comm : I2C ε) (bits : Nat) (f : Nat → Nat) :
    List Tx × Nat × Except ε Unit :=
  let bits2 := f bits
  let w := write_register comm av_conf.ADDR bits2
  (w.1, bits2, w.2)

/-- Decodes the humidity averaging field to a sample count; `none` models the
unreachable branch of the source match. -/
def AvConf.humidity_samples_averaged (bits : Nat) : Option Nat :=
  match (bits >>> av_conf.H_OFFSET) &&& av_conf.H_MASK with
  | 0 => some 4
  | 1 => some 8
  | 2 => some 16
  | 3 => some 32
  | 4 => some 64
  | 5 => some 128
  | 6 => some 256
  | 7 => some 512
  | _ => none

/-- Encodes a humidity averaging selector into the snapshot. -/
def AvConf.set_humidity_samples_averaged (bits : Nat) (samples : av_conf.AvgH) : Nat :=
  (bits &&& u8not (av_conf.H_MASK <<< av_conf.H_OFFSET)) |||
    (samples.val <<< av_conf.H_OFFSET)

/-- Decodes the temperature averaging field to a sample count; `none` models
the unreachable branch of the source match. -/
def AvConf.temperature_samples_averaged (bits : Nat) : Option Nat :=
  match (bits >>> av_conf.T_OFFSET) &&& av_conf.T_MASK with
  | 0 => some 2
  | 1 => some 4
  | 2 => some 8
  | 3 => some 16
  | 4 => some 32
  | 5 => some 64
  | 6 => some 128
  | 7 => some 256
  | _ => none

/-- Encodes a temperature averaging selector into the snapshot. -/
def AvConf.set_temperature_samples_averaged (bits : Nat) (samples : av_conf.AvgT) : Nat :=
  (bits &&& u8not (av_conf.T_MASK <<< av_conf.T_OFFSET)) |||
    (samples.val <<< av_conf.T_OFFSET)

/-- Sub-address of CTRL_REG1. -/
def cr1.ADDR : Nat := 0x20

/-- The power-down bit is bit 7. -/
def cr1.PD_BIT : Nat := 7

/-- The block data update bit is bit 2. -/
def cr1.BDU_BIT : Nat := 2

/-- The output data rate mask (2 bits). -/
def cr1.ODR_MASK : Nat := 0b11

/-- The output data rate offset (bit 0). -/
def cr1.ODR_OFFSET : Nat := 0

/-- Output data rate values. -/
inductive cr1.DataRate where
  | OneShot | Continuous1Hz | Continuous7Hz | Continuous12_5Hz
  deriving DecidableEq, Fintype

/-- Discriminant of each data rate, as in the Rust enum. -/
def cr1.DataRate.val : cr1.DataRate → Nat
  | .OneShot => 0b00
  | .Continuous1Hz => 0b01
  | .Continuous7Hz => 0b10
  | .Continuous12_5Hz => 0b11

/-- Blocking read of the CTRL_REG1 register. -/
def CtrlReg1.new {ε : Type} (comm : I2C ε) : List Tx × Except ε Nat :=
  read_register comm cr1.ADDR

/-- Updates the snapshot using `f`, then writes the new value out to the chip. -/
def CtrlReg1.modify {ε : Type} (comm : I2C ε) (bits : Nat) (f : Nat → Nat) :
    List Tx × Nat × Except ε Unit :=
  let bits2 := f bits
  let w := write_register comm cr1.ADDR bits2
  (w.1, bits2, w.2)

/-- As in the source: masks the snapshot with the value of `cr1.PD_BIT` itself
(`self.0 & cr1::PD_BIT`), not with `1` shifted by it. -/
def CtrlReg1.is_powered_up (bits : Nat) : Bool :=
  decide ((bits &&& cr1.PD_BIT) > 0)

/-- Clears the power-down bit. -/
def CtrlReg1.power_down (bits : Nat) : Nat :=
  bits &&& u8not (1 <<< cr1.PD_BIT)

/-- Sets the power-down bit. -/
def CtrlReg1.power_up (bits : Nat) : Nat :=
  bits ||| (1 <<< cr1.PD_BIT)

/-- As in the source: masks the snapshot with the value of `cr1.BDU_BIT` itself
(`self.0 & cr1::BDU_BIT`), not with `1` shifted by it. -/
def CtrlReg1.is_block_update (bits : Nat) : Bool :=
  decide ((bits &&& cr1.BDU_BIT) > 0)

/-- Clears the block-update mode bit. -/
def CtrlReg1.set_continuous_update (bits : Nat) : Nat :=
  bits &&& u8not (1 <<< cr1.BDU_BIT)

/-- Sets the block-update mode bit. -/
def CtrlReg1.set_block_update (bits : Nat) : Nat :=
  bits ||| (1 <<< cr1.BDU_BIT)

/-- Decodes the data rate field; `none` models the unreachable branch. -/
def CtrlReg1.data_rate (bits : Nat) : Option cr1.DataRate :=
  match (bits >>> cr1.ODR_OFFSET) &&& cr1.ODR_MASK with
  | 0 => some cr1.DataRate.OneShot
  | 1 => some cr1.DataRate.Continuous1Hz
  | 2 => some cr1.DataRate.Continuous7Hz
  | 3 => some cr1.DataRate.Continuous12_5Hz
  | _ => none

/-- Encodes a data rate into the snapshot. -/
def CtrlReg1.set_data_rate (bits : Nat) (rate : cr1.DataRate) : Nat :=
  (bits &&& u8not (cr1.ODR_MASK <<< cr1.ODR_OFFSET)) |||
    (rate.val <<< cr1.ODR_OFFSET)

/-- Sub-address of CTRL_REG2. -/
def cr2.ADDR : Nat := 0x21

/-- The boot bit is bit 7. -/
def cr2.BOOT_BIT : Nat := 7

/-- The heater bit is bit 1. -/
def cr2.HEATER_BIT : Nat := 1

/-- The one-shot bit is bit 0. -/
def cr2.ONE_SHOT_BIT : Nat := 0

/-- Blocking read of the CTRL_REG2 register. -/
def CtrlReg2.new {ε : Type} (comm : I2C ε) : List Tx × Except ε Nat :=
  read_register comm cr2.ADDR

/-- Updates the snapshot using `f`, then writes the new value out to the chip. -/
def CtrlReg2.modify {ε : Type} (comm : I2C ε) (bits : Nat) (f : Nat → Nat) :
    List Tx × Nat × Except ε Unit :=
  let bits2 := f bits
  let w := write_register comm cr2.ADDR bits2
  (w.1, bits2, w.2)

/-- As in the source: masks the snapshot with the value of `cr2.BOOT_BIT`
itself (`self.0 & cr2::BOOT_BIT`), not with `1` shifted by it. -/
def CtrlReg2.is_booting (bits : Nat) : Bool :=
  decide ((bits &&& cr2.BOOT_BIT) > 0)

/-- Sets the boot bit. -/
def CtrlReg2.boot (bits : Nat) : Nat :=
  bits ||| (1 <<< cr2.BOOT_BIT)

/-- As in the source: masks the snapshot with the value of `cr2.HEATER_BIT`
itself (`self.0 & cr2::HEATER_BIT`), not with `1` shifted by it. -/
def CtrlReg2.is_heater_on (bits : Nat) : Bool :=
  decide ((bits &&& cr2.HEATER_BIT) > 0)

/-- Sets the heater bit. -/
def CtrlReg2.set_heater_on (bits : Nat) : Nat :=
  bits ||| (1 <<< cr2.HEATER_BIT)

/-- Clears the heater bit. -/
def CtrlReg2.set_heater_off (bits : Nat) : Nat :=
  bits &&& u8not (1 <<< cr2.HEATER_BIT)

/-- As in the source: masks the snapshot with the value of `cr2.ONE_SHOT_BIT`
itself (`self.0 & cr2::ONE_SHOT_BIT`, which is `bits &&& 0`). -/
def CtrlReg2.is_one_shot (bits : Nat) : Bool :=
  decide ((bits &&& cr2.ONE_SHOT_BIT) > 0)

/-- Sets the one-shot bit. -/
def CtrlReg2.set_one_shot (bits : Nat) : Nat :=
  bits ||| (1 <<< cr2.ONE_SHOT_BIT)

/-- Sub-address of CTRL_REG3. -/
def cr3.ADDR : Nat := 0x22

/-- The data ready polarity bit is bit 7. -/
def cr3.DRDY_H_L_BIT : Nat := 7

/-- The data ready mode bit is bit 6. -/
def cr3.PP_OD_BIT : Nat := 6

/-- The data ready interrupt enable bit is bit 2. -/
def cr3.DRDY_BIT : Nat := 2

/-- Blocking read of the CTRL_REG3 register. -/
def CtrlReg3.new {ε : Type} (comm : I2C ε) : List Tx × Except ε Nat :=
  read_register comm cr3.ADDR

/-- Updates the snapshot using `f`, then writes the new value out to the chip. -/
def CtrlReg3.modify {ε : Type} (comm : I2C ε) (bits : Nat) (f : Nat → Nat) :
    List Tx × Nat × Except ε Unit :=
  let bits2 := f bits
  let w := write_register comm cr3.ADDR bits2
  (w.1, bits2, w.2)

/-- Clears the polarity bit: data ready signalled high. -/
def CtrlReg3.data_ready_high (bits : Nat) : Nat :=
  bits &&& u8not (1 <<< cr3.DRDY_H_L_BIT)

/-- Sets the polarity bit: data ready signalled low. -/
def CtrlReg3.data_ready_low (bits : Nat) : Nat :=
  bits ||| (1 <<< cr3.DRDY_H_L_BIT)

/-- Clears the drive mode bit: push-pull. -/
def CtrlReg3.data_ready_push_pull (bits : Nat) : Nat :=
  bits &&& u8not (1 <<< cr3.PP_OD_BIT)

/-- Sets the drive mode bit: open drain. -/
def CtrlReg3.data_ready_open_drain (bits : Nat) : Nat :=
  bits ||| (1 <<< cr3.PP_OD_BIT)

/-- Clears the data ready interrupt enable bit. -/
def CtrlReg3.data_ready_disable (bits : Nat) : Nat :=
  bits &&& u8not (1 <<< cr3.DRDY_BIT)

/-- Sets the data ready interrupt enable bit. -/
def CtrlReg3.data_ready_enable (bits : Nat) : Nat :=
  bits ||| (1 <<< cr3.DRDY_BIT)

/-- Sub-address of STATUS. -/
def status.ADDR : Nat := 0x27

/-- The humidity ready bit is bit 1. -/
def status.HUMIDITY_BIT : Nat := 1

/-- The temperature ready bit is bit 0. -/
def status.TEMPERATURE_BIT : Nat := 0

/-- Blocking read of the STATUS register. -/
def StatusReg.new {ε : Type} (comm : I2C ε) : List Tx × Except ε Nat :=
  read_register comm status.ADDR

/-- Returns true if humidity data is available. -/
def StatusReg.humidity_data_available (bits : Nat) : Bool :=
  decide ((bits &&& (1 <<< status.HUMIDITY_BIT)) > 0)

/-- Returns true if temperature data is available. -/
def StatusReg.temperature_data_available (bits : Nat) : Bool :=
  decide ((bits &&& (1 <<< status.TEMPERATURE_BIT)) > 0)

/-- Sub-address of the humidity output pair, with the auto-increment bit set. -/
def h_out.ADDR : Nat := 0x80 ||| 0x28

/-- Blocking read of HUMIDITY_OUT_L and HUMIDITY_OUT_H as one transfer. -/
def HumidityOut.new {ε : Type} (comm : I2C ε) : List Tx × Except ε Int :=
  read_register_pair comm h_out.ADDR

/-- Sub-address of the temperature output pair, with the auto-increment bit set. -/
def t_out.ADDR : Nat := 0x80 ||| 0x2A

/-- Blocking read of TEMP_OUT_L and TEMP_OUT_H as one transfer. -/
def TemperatureOut.new {ε : Type} (comm : I2C ε) : List Tx × Except ε Int :=
  read_register_pair comm t_out.ADDR

/-- Calibration data decoded from the 16-byte calibration block. -/
structure Calibration where
  h0_rh_x2 : Nat
  h1_rh_x2 : Nat
  t0_deg_c_x8 : Nat
  t1_deg_c_x8 : Nat
  h0_t0_out : Int
  h1_t0_out : Int
  t0_out : Int
  t1_out : Int
  deriving DecidableEq

/-- Sub-address of the calibration block, with the auto-increment bit set. -/
def calibration.ADDR : Nat := 0x80 ||| 0x30

/-- Field-by-field decode of the 16-byte calibration buffer, exactly as the
source constructor computes each field from `data`. -/
def Calibration.ofBytes (data : List Nat) : Calibration :=
  { h0_rh_x2 := data.getD 0 0
    h1_rh_x2 := data.getD 1 0
    t0_deg_c_x8 := (((data.getD 5 0) &&& 0b11) <<< 8) ||| data.getD 2 0
    t1_deg_c_x8 := ((((data.getD 5 0) &&& 0b1100) >>> 2) <<< 8) ||| data.getD 3 0
    h0_t0_out := i16FromBytes (data.getD 6 0) (data.getD 7 0)
    h1_t0_out := i16FromBytes (data.getD 10 0) (data.getD 11 0)
    t0_out := i16FromBytes (data.getD 12 0) (data.getD 13 0)
    t1_out := i16FromBytes (data.getD 14 0) (data.getD 15 0) }

/-- Blocking read of the calibration registers: one 16-byte transfer, decoded. -/
def Calibration.new {ε : Type} (comm : I2C ε) : List Tx × Except ε Calibration :=
  let r := comm.write_read I2C_ID [calibration.ADDR] 16
  (r.1, r.2.map Calibration.ofBytes)

/-- The 16-byte calibration fixture from the specification. -/
def calibFixture : List Nat := [64, 128, 10, 20, 0, 0b00000101, 0, 0, 50, 0, 60, 0, 70, 0, 80, 0]

/-- A bus whose every read returns the calibration fixture and whose writes
succeed. -/
def fixtureComm : I2C Unit :=
  { writeResult := fun _ _ => none
    readResult := fun _ _ _ => Except.ok calibFixture }

/-- A bus on which every transaction fails. -/
def failingComm : I2C Unit :=
  { writeResult := fun _ _ => some ()
    readResult := fun _ _ _ => Except.error () }

/-- Claim C1: for every CtrlReg1 snapshot byte, is_powered_up returns true
exactly when bit 7 is set and is_block_update exactly when bit 2 is set.
The code masks with the bit index instead of a shifted one: evaluated at the
snapshots 0x80, 0x01 and 0x04, the getters disagree with the claimed bits. -/
theorem c1_ctrl_reg1_getters_use_bit_index :
    CtrlReg1.is_powered_up 0x80 = false ∧ Nat.testBit 0x80 7 = true ∧
    CtrlReg1.is_powered_up 0x01 = true ∧ Nat.testBit 0x01 7 = false ∧
    CtrlReg1.is_block_update 0x04 = false ∧ Nat.testBit 0x04 2 = true ∧
    CtrlReg1.is_block_update 0x02 = true ∧ Nat.testBit 0x02 2 = false := by
  decide

set_option maxRecDepth 4096 in
/-- Claim C2: for every CtrlReg2 snapshot byte, is_booting returns true exactly
when bit 7 is set, is_heater_on exactly when bit 1 is set, and is_one_shot
exactly when bit 0 is set.  The code masks with the bit index instead of a
shifted one (for the one-shot bit this masks with zero, so the getter is
constantly false): evaluated at 0x80, 0x02 and 0x01 the getters disagree with
the claimed bits. -/
theorem c2_ctrl_reg2_getters_use_bit_index :
    CtrlReg2.is_booting 0x80 = false ∧ Nat.testBit 0x80 7 = true ∧
    CtrlReg2.is_heater_on 0x02 = false ∧ Nat.testBit 0x02 1 = true ∧
    CtrlReg2.is_one_shot 0x01 = false ∧ Nat.testBit 0x01 0 = true ∧
    (∀ bits : Nat, bits < 256 → CtrlReg2.is_one_shot bits = false) := by
  refine ⟨by decide, by decide, by decide, by decide, by decide, by decide, ?_⟩
  decide

/-- Claim C3, counterexample: on the fixture bytes
[64,128,10,20,0,0b101,0,0,50,0,60,0,70,0,80,0] the decoded calibration does not
have h0_t0_out = 50: the code assembles h0_t0_out from bytes 6 and 7, which are
both zero in the fixture. -/
theorem c3_fixture_h0_t0_out_is_not_50 :
    ¬((Calibration.new fixtureComm).2 = Except.ok
      { h0_rh_x2 := 64, h1_rh_x2 := 128, t0_deg_c_x8 := 266, t1_deg_c_x8 := 276,
        h0_t0_out := 50, h1_t0_out := 60, t0_out := 70, t1_out := 80 }) := by
  intro h
  have h2 : Calibration.ofBytes calibFixture =
      { h0_rh_x2 := 64, h1_rh_x2 := 128, t0_deg_c_x8 := 266, t1_deg_c_x8 := 276,
        h0_t0_out := 50, h1_t0_out := 60, t0_out := 70, t1_out := 80 } := by
    have h3 : (Calibration.new fixtureComm).2 =
        Except.ok (Calibration.ofBytes calibFixture) := by rfl
    rw [h3] at h
    exact Except.ok.inj h
  have h4 : (Calibration.ofBytes calibFixture).h0_t0_out = 0 := by decide
  rw [h2] at h4
  exact absurd h4 (by decide)

/-- Claim C3, amended: on the fixture bytes the decoded calibration has
h0_rh_x2 = 64, h1_rh_x2 = 128, t0_deg_c_x8 = 266, t1_deg_c_x8 = 276,
h0_t0_out = 0 (bytes 6 and 7 of the fixture are zero), h1_t0_out = 60,
t0_out = 70, t1_out = 80. -/
theorem c3_calibration_fixture_decode :
    (Calibration.new fixtureComm).2 = Except.ok
      { h0_rh_x2 := 64, h1_rh_x2 := 128, t0_deg_c_x8 := 266, t1_deg_c_x8 := 276,
        h0_t0_out := 0, h1_t0_out := 60, t0_out := 70, t1_out := 80 } := by
  have h3 : (Calibration.new fixtureComm).2 =
      Except.ok (Calibration.ofBytes calibFixture) := by rfl
  rw [h3]
  congr 1

/-- Claim C7: for every writable register wrapper, modify applies `f` to the
snapshot and issues exactly one bus write carrying the register address and the
whole resulting byte; with the identity mutation, exactly one write of the
unchanged byte is still issued. -/
theorem c7_modify_issues_one_full_write :
    ∀ (ε : Type) (comm : I2C ε) (bits : Nat) (f : Nat → Nat),
      (AvConf.modify comm bits f).1 = [Tx.write 0x5F [0x10, f bits]] ∧
      (AvConf.modify comm bits f).2.1 = f bits ∧
      (CtrlReg1.modify comm bits f).1 = [Tx.write 0x5F [0x20, f bits]] ∧
      (CtrlReg1.modify comm bits f).2.1 = f bits ∧
      (CtrlReg2.modify comm bits f).1 = [Tx.write 0x5F [0x21, f bits]] ∧
      (CtrlReg2.modify comm bits f).2.1 = f bits ∧
      (CtrlReg3.modify comm bits f).1 = [Tx.write 0x5F [0x22, f bits]] ∧
      (CtrlReg3.modify comm bits f).2.1 = f bits ∧
      (AvConf.modify comm bits (fun b => b)).1 = [Tx.write 0x5F [0x10, bits]] ∧
      (CtrlReg1.modify comm bits (fun b => b)).1 = [Tx.write 0x5F [0x20, bits]] ∧
      (CtrlReg2.modify comm bits (fun b => b)).1 = [Tx.write 0x5F [0x21, bits]] ∧
      (CtrlReg3.modify comm bits (fun b => b)).1 = [Tx.write 0x5F [0x22, bits]] :=
  fun _ _ _ _ =>
    ⟨rfl, rfl, rfl, rfl, rfl, rfl, rfl, rfl, rfl, rfl, rfl, rfl⟩

/-- Claim C10: if the bus write inside modify fails, the in-memory snapshot
still holds the mutated byte `f bits`; there is no rollback. -/
theorem c10_modify_keeps_mutation_on_error :
    ∀ (ε : Type) (comm : I2C ε) (bits : Nat) (f : Nat → Nat) (e : ε),
      ((AvConf.modify comm bits f).2.2 = Except.error e →
        (AvConf.modify comm bits f).2.1 = f bits) ∧
      ((CtrlReg1.modify comm bits f).2.2 = Except.error e →
        (CtrlReg1.modify comm bits f).2.1 = f bits) ∧
      ((CtrlReg2.modify comm bits f).2.2 = Except.error e →
        (CtrlReg2.modify comm bits f).2.1 = f bits) ∧
      ((CtrlReg3.modify comm bits f).2.2 = Except.error e →
        (CtrlReg3.modify comm bits f).2.1 = f bits) :=
  fun _ _ _ _ _ =>
    ⟨fun _ => rfl, fun _ => rfl, fun _ => rfl, fun _ => rfl⟩

/-- Claim C10, witness: on a bus whose writes fail, modify with a mutation that
sets bit 7 of a zero snapshot reports an error yet leaves the snapshot at 128. -/
theorem c10_witness :
    (AvConf.modify failingComm 0 (fun b => b ||| 128)).2.1 = 128 :=
  (c10_modify_keeps_mutation_on_error Unit failingComm 0 (fun b => b ||| 128) ()).1 rfl

set_option maxRecDepth 8192 in
/-- Claim C5: starting from any snapshot byte, setting any humidity averaging
level then decoding yields the sample count of that level, setting any temperature
averaging level then decoding yields the sample count of that level, and setting any
data rate then decoding yields the same data rate. -/
theorem c5_av_conf_and_data_rate_roundtrip (bits : Nat) (h : bits < 256) :
    (∀ s : av_conf.AvgH,
      AvConf.humidity_samples_averaged (AvConf.set_humidity_samples_averaged bits s) =
        some s.samples) ∧
    (∀ s : av_conf.AvgT,
      AvConf.temperature_samples_averaged (AvConf.set_temperature_samples_averaged bits s) =
        some s.samples) ∧
    (∀ r : cr1.DataRate,
      CtrlReg1.data_rate (CtrlReg1.set_data_rate bits r) = some r) := by
  revert h
  revert bits
  decide

/-- Claim C5, witness: instantiated at the snapshot 0xAB and the 16-sample
humidity averaging level. -/
theorem c5_witness :
    AvConf.humidity_samples_averaged
      (AvConf.set_humidity_samples_averaged 0xAB av_conf.AvgH.Avg16) = some 16 :=
  (c5_av_conf_and_data_rate_roundtrip 0xAB (by decide)).1 av_conf.AvgH.Avg16

set_option maxRecDepth 8192 in
/-- Claim C6: on every snapshot byte, each single-bit setter of CtrlReg1,
CtrlReg2 and CtrlReg3 leaves every bit other than its own unchanged. -/
theorem c6_single_bit_setters_preserve_other_bits (bits : Nat) (h : bits < 256) :
    (∀ i < 8, i ≠ 7 → (CtrlReg1.power_up bits).testBit i = bits.testBit i) ∧
    (∀ i < 8, i ≠ 7 → (CtrlReg1.power_down bits).testBit i = bits.testBit i) ∧
    (∀ i < 8, i ≠ 2 → (CtrlReg1.set_block_update bits).testBit i = bits.testBit i) ∧
    (∀ i < 8, i ≠ 2 → (CtrlReg1.set_continuous_update bits).testBit i = bits.testBit i) ∧
    (∀ i < 8, i ≠ 7 → (CtrlReg2.boot bits).testBit i = bits.testBit i) ∧
    (∀ i < 8, i ≠ 1 → (CtrlReg2.set_heater_on bits).testBit i = bits.testBit i) ∧
    (∀ i < 8, i ≠ 1 → (CtrlReg2.set_heater_off bits).testBit i = bits.testBit i) ∧
    (∀ i < 8, i ≠ 0 → (CtrlReg2.set_one_shot bits).testBit i = bits.testBit i) ∧
    (∀ i < 8, i ≠ 7 → (CtrlReg3.data_ready_high bits).testBit i = bits.testBit i) ∧
    (∀ i < 8, i ≠ 7 → (CtrlReg3.data_ready_low bits).testBit i = bits.testBit i) ∧
    (∀ i < 8, i ≠ 6 → (CtrlReg3.data_ready_push_pull bits).testBit i = bits.testBit i) ∧
    (∀ i < 8, i ≠ 6 → (CtrlReg3.data_ready_open_drain bits).testBit i = bits.testBit i) ∧
    (∀ i < 8, i ≠ 2 → (CtrlReg3.data_ready_disable bits).testBit i = bits.testBit i) ∧
    (∀ i < 8, i ≠ 2 → (CtrlReg3.data_ready_enable bits).testBit i = bits.testBit i) := by
  refine ⟨?_, ?_, ?_, ?_, ?_, ?_, ?_, ?_, ?_, ?_, ?_, ?_, ?_, ?_⟩
  all_goals revert h
  all_goals revert bits
  all_goals decide

/-- Claim C6, witness: instantiated at the snapshot 0x55, bit 0 under
power_up. -/
theorem c6_witness :
    (CtrlReg1.power_up 0x55).testBit 0 = (0x55 : Nat).testBit 0 :=
  (c6_single_bit_setters_preserve_other_bits 0x55 (by decide)).1 0 (by decide) (by decide)

/-- Claim C9: on every snapshot, the three bitfield decoders return a value:
the masked field is at most the mask, so the final match arm modelling the
unreachable branch of the source is never taken. -/
theorem c9_decoders_never_hit_unreachable (bits : Nat) :
    (AvConf.humidity_samples_averaged bits).isSome = true ∧
    (AvConf.temperature_samples_averaged bits).isSome = true ∧
    (CtrlReg1.data_rate bits).isSome = true := by
  refine ⟨?_, ?_, ?_⟩
  · unfold AvConf.humidity_samples_averaged
    have h : (bits >>> av_conf.H_OFFSET) &&& av_conf.H_MASK ≤ 7 :=
      Nat.and_le_right
    generalize (bits >>> av_conf.H_OFFSET) &&& av_conf.H_MASK = x at h ⊢
    interval_cases x <;> rfl
  · unfold AvConf.temperature_samples_averaged
    have h : (bits >>> av_conf.T_OFFSET) &&& av_conf.T_MASK ≤ 7 :=
      Nat.and_le_right
    generalize (bits >>> av_conf.T_OFFSET) &&& av_conf.T_MASK = x at h ⊢
    interval_cases x <;> rfl
  · unfold CtrlReg1.data_rate
    have h : (bits >>> cr1.ODR_OFFSET) &&& cr1.ODR_MASK ≤ 3 :=
      Nat.and_le_right
    generalize (bits >>> cr1.ODR_OFFSET) &&& cr1.ODR_MASK = x at h ⊢
    interval_cases x <;> rfl

/-- On bytes below 256, the i16 assembly from the source equals the
twos-complement reading of the little-endian combination. -/
theorem i16FromBytes_little_endian (lo hi : Nat) (hlo : lo < 256) (hhi : hi < 256) :
    i16FromBytes lo hi = i16val (hi * 256 + lo) := by
  unfold i16FromBytes
  have h1 : hi <<< 8 = hi * 256 := by rw [Nat.shiftLeft_eq]
  have h2 : hi * 256 % 65536 = hi * 256 := Nat.mod_eq_of_lt (by omega)
  have h3 := (Nat.mul_add_lt_is_or (b := lo) (i := 8) (by omega) hi).symm
  norm_num at h3
  rw [h1, h2, Nat.mul_comm hi 256, h3]

/-- If the bus supplies the two bytes lo and hi, read_register_pair succeeds
with the twos-complement little-endian value. -/
theorem read_register_pair_ok {ε : Type} (comm : I2C ε) (addr lo hi : Nat)
    (hlo : lo < 256) (hhi : hi < 256)
    (hresp : comm.readResult I2C_ID [addr] 2 = Except.ok [lo, hi]) :
    (read_register_pair comm addr).2 = Except.ok (i16val (hi * 256 + lo)) := by
  unfold read_register_pair I2C.write_read
  simp only [hresp, List.cons_append, List.nil_append, List.take, Except.map,
    List.getD, List.get?, List.replicate]
  simp [List.getD, i16FromBytes_little_endian lo hi hlo hhi]

/-- Claim C4: read_register_pair (and hence HumidityOut and TemperatureOut)
assembles the two response bytes little-endian into a signed 16-bit value,
with [0xFF, 0xFF] decoding to -1, [0x00, 0x80] to -32768 and [0xFF, 0x7F]
to 32767. -/
theorem c4_pair_decode_signed_little_endian :
    (∀ lo hi : Nat, lo < 256 → hi < 256 →
      i16FromBytes lo hi = i16val (hi * 256 + lo)) ∧
    (∀ (ε : Type) (comm : I2C ε) (addr lo hi : Nat), lo < 256 → hi < 256 →
      comm.readResult I2C_ID [addr] 2 = Except.ok [lo, hi] →
      (read_register_pair comm addr).2 = Except.ok (i16val (hi * 256 + lo))) ∧
    (∀ (ε : Type) (comm : I2C ε) (lo hi : Nat), lo < 256 → hi < 256 →
      comm.readResult I2C_ID [h_out.ADDR] 2 = Except.ok [lo, hi] →
      (HumidityOut.new comm).2 = Except.ok (i16val (hi * 256 + lo))) ∧
    (∀ (ε : Type) (comm : I2C ε) (lo hi : Nat), lo < 256 → hi < 256 →
      comm.readResult I2C_ID [t_out.ADDR] 2 = Except.ok [lo, hi] →
      (TemperatureOut.new comm).2 = Except.ok (i16val (hi * 256 + lo))) ∧
    i16FromBytes 0xFF 0xFF = -1 ∧
    i16FromBytes 0x00 0x80 = -32768 ∧
    i16FromBytes 0xFF 0x7F = 32767 :=
  ⟨fun lo hi hlo hhi => i16FromBytes_little_endian lo hi hlo hhi,
   fun _ comm addr lo hi hlo hhi hresp =>
     read_register_pair_ok comm addr lo hi hlo hhi hresp,
   fun _ comm lo hi hlo hhi hresp =>
     read_register_pair_ok comm h_out.ADDR lo hi hlo hhi hresp,
   fun _ comm lo hi hlo hhi hresp =>
     read_register_pair_ok comm t_out.ADDR lo hi hlo hhi hresp,
   by decide, by decide, by decide⟩

/-- Claim C4, witness: instantiated at the bytes 0x34 and 0x12. -/
theorem c4_witness :
    i16FromBytes 0x34 0x12 = i16val (0x12 * 256 + 0x34) :=
  c4_pair_decode_signed_little_endian.1 0x34 0x12 (by decide) (by decide)

/-- Claim C8: every wrapper constructor issues exactly one write-read
transaction to peer 0x5F with the documented request byte and response length,
and the constructors of the read-only wrappers issue no write transaction. -/
theorem c8_constructor_transactions :
    ∀ (ε : Type) (comm : I2C ε),
      (WhoAmI.new comm).1 = [Tx.writeRead 0x5F [0x0F] 1] ∧
      (AvConf.new comm).1 = [Tx.writeRead 0x5F [0x10] 1] ∧
      (CtrlReg1.new comm).1 = [Tx.writeRead 0x5F [0x20] 1] ∧
      (CtrlReg2.new comm).1 = [Tx.writeRead 0x5F [0x21] 1] ∧
      (CtrlReg3.new comm).1 = [Tx.writeRead 0x5F [0x22] 1] ∧
      (StatusReg.new comm).1 = [Tx.writeRead 0x5F [0x27] 1] ∧
      (HumidityOut.new comm).1 = [Tx.writeRead 0x5F [0xA8] 2] ∧
      (TemperatureOut.new comm).1 = [Tx.writeRead 0x5F [0xAA] 2] ∧
      (Calibration.new comm).1 = [Tx.writeRead 0x5F [0xB0] 16] ∧
      (∀ t ∈ (WhoAmI.new comm).1, t.isWriteTx = false) ∧
      (∀ t ∈ (StatusReg.new comm).1, t.isWriteTx = false) ∧
      (∀ t ∈ (HumidityOut.new comm).1, t.isWriteTx = false) ∧
      (∀ t ∈ (TemperatureOut.new comm).1, t.isWriteTx = false) ∧
      (∀ t ∈ (Calibration.new comm).1, t.isWriteTx = false) := by
  intro ε comm
  refine ⟨rfl, rfl, rfl, rfl, rfl, rfl, rfl, rfl, rfl, ?_, ?_, ?_, ?_, ?_⟩
  all_goals intro t ht
  all_goals simp only [WhoAmI.new, StatusReg.new, HumidityOut.new,
    TemperatureOut.new, Calibration.new, read_register, read_register_pair,
    I2C.write_read, List.mem_singleton] at ht
  all_goals subst ht
  all_goals rfl
